import Mathlib

/-!
Verification of the asset-loading and vertex-interleaving core of the
`cruel_game_engine` repository (Rust), as a shallow embedding in Lean 4.

Scalar conventions of the embedding: `f32` values are modelled as `ℚ`
(the interleaving, layout and color-normalization code performs no
rounding-sensitive arithmetic beyond division by the constant 255);
`u8` / `u16` are `Fin 256` / `Fin 65536`; `usize`, `u32` and `i32`
quantities (counters, sizes, offsets, strides) are `Nat`, all of which
stay far below any overflow boundary in this program.

The struct declarations for the data model (`VertexData`, `Color`, `Uv`,
`LoadedTexture`, `LoadedPrimitive`, `LoadedMesh`, `LoadedMaterial`,
`CompiledShaderProgram`) are not present in the repository snapshot; their
field shapes are reconstructed from every use in `loader.rs` / `mesh.rs`
and from the spec's data-model section.  All behaviour proved below is
translated from the functions that are present in the source:
`determine_layouts`, `calculate_stride`, `interleave_vertex_data`
(mesh.rs), `load_gltf_full` and the `AssetLoader::new` worker loop
(loader.rs).  Rust panics are modelled as `Except.error`.
-/

/-- `[f32; 2]`. -/
abbrev Vec2 := ℚ × ℚ

/-- `[f32; 3]`. -/
abbrev Vec3 := ℚ × ℚ × ℚ

/-- `[f32; 4]`. -/
abbrev Vec4 := ℚ × ℚ × ℚ × ℚ

/-- `u8`. -/
abbrev U8 := Fin 256

/-- `u16`. -/
abbrev U16 := Fin 65536

/-- `[u16; 4]`, one vertex's joint indices. -/
abbrev JointVec := U16 × U16 × U16 × U16

def vec2List (v : Vec2) : List ℚ := [v.1, v.2]

def vec3List (v : Vec3) : List ℚ := [v.1, v.2.1, v.2.2]

def vec4List (v : Vec4) : List ℚ := [v.1, v.2.1, v.2.2.1, v.2.2.2]

/-- A color attribute set: `Color::Rgb(Vec<[f32;3]>)` or `Color::Rgba(Vec<[f32;4]>)`
(shape from its uses in `mesh.rs`/`loader.rs` and spec section 3). -/
inductive Color where
  | Rgb (cs : List Vec3)
  | Rgba (cs : List Vec4)
deriving DecidableEq

/-- `Uv(Vec<[f32; 2]>)`, one texcoord set (shape from `loader.rs` line 73). -/
structure Uv where
  uvs : List Vec2
deriving DecidableEq

/-- `VertexData` (field shapes from `loader.rs` lines 43-120 and spec section 3). -/
structure VertexData where
  positions : List Vec3
  normals : Option (List Vec3)
  tangents : Option (List Vec4)
  texcoords : List Uv
  colors : List Color
  joints : Option (List JointVec)
  weights : Option (List Vec4)
deriving DecidableEq

/-- `glow::FLOAT` (0x1406). -/
def GL_FLOAT : Nat := 5126

/-- `glow::UNSIGNED_SHORT` (0x1403). -/
def GL_UNSIGNED_SHORT : Nat := 5123

/-- `opengl.rs` lines 3-10: one derived vertex-attribute descriptor. -/
structure Layout where
  index : Nat
  size : Nat
  gl_type : Nat
  normalized : Bool
  offset : Nat
deriving DecidableEq

/-- Component count of a color set (`mesh.rs` lines 387-390). -/
def colorSize : Color → Nat
  | .Rgb _ => 3
  | .Rgba _ => 4

/-- Number of per-vertex elements of a color set. -/
def colorLen : Color → Nat
  | .Rgb cs => cs.length
  | .Rgba cs => cs.length

/-- The texcoord loop of `determine_layouts` (`mesh.rs` lines 374-384),
with the `layouts` vector, running `offset` and `attrib_index` threaded
as accumulators. -/
def texcoordLayoutsAcc : List Uv → List Layout → Nat → Nat → List Layout × Nat × Nat
  | [], layouts, offset, attribIndex => (layouts, offset, attribIndex)
  | _ :: rest, layouts, offset, attribIndex =>
      texcoordLayoutsAcc rest (layouts ++ [⟨attribIndex, 2, GL_FLOAT, false, offset⟩])
        (offset + 2 * 4) (attribIndex + 1)

/-- The color loop of `determine_layouts` (`mesh.rs` lines 386-400). -/
def colorLayoutsAcc : List Color → List Layout → Nat → Nat → List Layout × Nat × Nat
  | [], layouts, offset, attribIndex => (layouts, offset, attribIndex)
  | c :: rest, layouts, offset, attribIndex =>
      colorLayoutsAcc rest (layouts ++ [⟨attribIndex, colorSize c, GL_FLOAT, false, offset⟩])
        (offset + colorSize c * 4) (attribIndex + 1)

/-- `mesh.rs` lines 334-426: `determine_layouts`.  Straight-line translation:
position always first, then the conditional pushes in source order.
`size_of::<f32>() = 4`, `size_of::<u16>() = 2`. -/
def determine_layouts (vd : VertexData) : List Layout :=
  let layouts : List Layout := [⟨0, 3, GL_FLOAT, false, 0⟩]
  let offset : Nat := 3 * 4
  let attribIndex : Nat := 1
  let (layouts, offset, attribIndex) :=
    match vd.normals with
    | some _ => (layouts ++ [(⟨attribIndex, 3, GL_FLOAT, false, offset⟩ : Layout)], offset + 3 * 4, attribIndex + 1)
    | none => (layouts, offset, attribIndex)
  let (layouts, offset, attribIndex) :=
    match vd.tangents with
    | some _ => (layouts ++ [(⟨attribIndex, 4, GL_FLOAT, false, offset⟩ : Layout)], offset + 4 * 4, attribIndex + 1)
    | none => (layouts, offset, attribIndex)
  let (layouts, offset, attribIndex) := texcoordLayoutsAcc vd.texcoords layouts offset attribIndex
  let (layouts, offset, attribIndex) := colorLayoutsAcc vd.colors layouts offset attribIndex
  let (layouts, offset, attribIndex) :=
    match vd.joints with
    | some _ => (layouts ++ [(⟨attribIndex, 4, GL_UNSIGNED_SHORT, false, offset⟩ : Layout)], offset + 4 * 2, attribIndex + 1)
    | none => (layouts, offset, attribIndex)
  let (layouts, _offset, _attribIndex) :=
    match vd.weights with
    | some _ => (layouts ++ [(⟨attribIndex, 4, GL_FLOAT, false, offset⟩ : Layout)], offset + 4 * 4, attribIndex)
    | none => (layouts, offset, attribIndex)
  layouts

/-- `mesh.rs` lines 428-439: `calculate_stride`.  The two panics (`Unsupported
attribute type`, empty layout list) are modelled as `Except.error`. -/
def calculate_stride (layouts : List Layout) : Except String Nat :=
  match layouts.getLast? with
  | some last =>
      if last.gl_type = GL_FLOAT then
        Except.ok (last.offset + last.size * 4)
      else if last.gl_type = GL_UNSIGNED_SHORT then
        Except.ok (last.offset + last.size * 2)
      else
        Except.error "Unsupported attribute type"
  | none => Except.error "No layouts provided to calculate stride!"

/-- An `interleave_vertex_data` panic: Rust index-out-of-bounds on an
attribute array shorter than `positions`, or the explicit
joints/weights `panic!` at `mesh.rs` line 477. -/
inductive InterleaveErr where
  | indexOutOfBounds
  | jointsWeightsUnimplemented
deriving DecidableEq

/-- Per-vertex emission of one optional attribute array (`normals[i]`,
`tangents[i]`): absent array contributes nothing, present array is
indexed (out of range = Rust panic). -/
def optVecRow (f : α → List ℚ) : Option (List α) → Nat → Except InterleaveErr (List ℚ)
  | none, _ => Except.ok []
  | some xs, i =>
      match xs[i]? with
      | some v => Except.ok (f v)
      | none => Except.error .indexOutOfBounds

/-- The `for uv in &vertex_data.texcoords` loop body at vertex `i`
(`mesh.rs` lines 460-462). -/
def uvRows : List Uv → Nat → Except InterleaveErr (List ℚ)
  | [], _ => Except.ok []
  | u :: rest, i =>
      match u.uvs[i]? with
      | none => Except.error .indexOutOfBounds
      | some v =>
          match uvRows rest i with
          | Except.error e => Except.error e
          | Except.ok l => Except.ok (vec2List v ++ l)

/-- The `for color in &vertex_data.colors` loop body at vertex `i`
(`mesh.rs` lines 465-470). -/
def colorRows : List Color → Nat → Except InterleaveErr (List ℚ)
  | [], _ => Except.ok []
  | c :: rest, i =>
      match (match c with
             | Color.Rgb cs => (cs[i]?).map vec3List
             | Color.Rgba cs => (cs[i]?).map vec4List) with
      | none => Except.error .indexOutOfBounds
      | some l =>
          match colorRows rest i with
          | Except.error e => Except.error e
          | Except.ok l2 => Except.ok (l ++ l2)

/-- One iteration of the per-vertex loop of `interleave_vertex_data`
(`mesh.rs` lines 445-479): positions, then each present optional
attribute in source order, then the joints/weights refusal check. -/
def interleaveRow (vd : VertexData) (i : Nat) : Except InterleaveErr (List ℚ) := do
  let pos ←
    match vd.positions[i]? with
    | some v => Except.ok (vec3List v)
    | none => Except.error InterleaveErr.indexOutOfBounds
  let nrm ← optVecRow vec3List vd.normals i
  let tan ← optVecRow vec4List vd.tangents i
  let uvs ← uvRows vd.texcoords i
  let cols ← colorRows vd.colors i
  if vd.joints.isSome || vd.weights.isSome then
    Except.error InterleaveErr.jointsWeightsUnimplemented
  else
    Except.ok (pos ++ nrm ++ tan ++ uvs ++ cols)

/-- The first `n` iterations of the per-vertex loop, in order. -/
def interleaveUpTo (vd : VertexData) : Nat → Except InterleaveErr (List ℚ)
  | 0 => Except.ok []
  | n + 1 =>
      match interleaveUpTo vd n with
      | Except.error e => Except.error e
      | Except.ok pre =>
          match interleaveRow vd n with
          | Except.error e => Except.error e
          | Except.ok row => Except.ok (pre ++ row)

/-- `mesh.rs` lines 441-482: `interleave_vertex_data`; the loop runs over
`0..vertex_count` with `vertex_count = positions.len()`. -/
def interleave_vertex_data (vd : VertexData) : Except InterleaveErr (List ℚ) :=
  interleaveUpTo vd vd.positions.length

/-! ## Layout derivation: closed form and spec-side description -/

/-- Byte size of one scalar of a GL component type, as `calculate_stride`
computes it (unsupported types get 0; they never occur in derived layouts). -/
def scalarBytes (t : Nat) : Nat :=
  if t = GL_FLOAT then 4 else if t = GL_UNSIGNED_SHORT then 2 else 0

/-- Byte size of one layout entry: component count times component scalar size. -/
def entryBytes (e : Nat × Nat) : Nat := e.1 * scalarBytes e.2

/-- Byte size of one derived layout entry. -/
def layoutBytes (l : Layout) : Nat := l.size * scalarBytes l.gl_type

/-- Sequential layout construction from a list of (component count, GL type)
entries: slot indices count up from `idx`, offsets accumulate from `off`. -/
def layoutChain : List (Nat × Nat) → Nat → Nat → List Layout
  | [], _, _ => []
  | (sz, ty) :: rest, idx, off =>
      ⟨idx, sz, ty, false, off⟩ :: layoutChain rest (idx + 1) (off + sz * scalarBytes ty)

/-- Running byte offsets of a list of entry sizes, starting at `off`. -/
def prefixSumsFrom (off : Nat) : List Nat → List Nat
  | [] => []
  | b :: bs => off :: prefixSumsFrom (off + b) bs

/-- The attribute order the spec prescribes for `determine_layout` (spec
section 4.3), as (component count, component type) pairs: position, normals
if present, tangents if present, texcoord sets in index order, color sets in
index order, joints if present, weights if present. -/
def spec_attribute_order (vd : VertexData) : List (Nat × Nat) :=
  [(3, GL_FLOAT)]
    ++ (if vd.normals.isSome then [(3, GL_FLOAT)] else [])
    ++ (if vd.tangents.isSome then [(4, GL_FLOAT)] else [])
    ++ vd.texcoords.map (fun _ => (2, GL_FLOAT))
    ++ vd.colors.map (fun c => (colorSize c, GL_FLOAT))
    ++ (if vd.joints.isSome then [(4, GL_UNSIGNED_SHORT)] else [])
    ++ (if vd.weights.isSome then [(4, GL_FLOAT)] else [])

theorem layoutChain_append (es₁ es₂ : List (Nat × Nat)) (idx off : Nat) :
    layoutChain (es₁ ++ es₂) idx off =
      layoutChain es₁ idx off ++
        layoutChain es₂ (idx + es₁.length) (off + (es₁.map entryBytes).sum) := by
  induction es₁ generalizing idx off with
  | nil => simp [layoutChain]
  | cons e rest ih =>
      obtain ⟨sz, ty⟩ := e
      simp [layoutChain, ih, entryBytes, Nat.add_assoc, Nat.add_comm, Nat.add_left_comm]

theorem layoutChain_length (es : List (Nat × Nat)) (idx off : Nat) :
    (layoutChain es idx off).length = es.length := by
  induction es generalizing idx off with
  | nil => simp [layoutChain]
  | cons e rest ih => obtain ⟨sz, ty⟩ := e; simp [layoutChain, ih]

theorem layoutChain_kinds (es : List (Nat × Nat)) (idx off : Nat) :
    (layoutChain es idx off).map (fun l => (l.size, l.gl_type)) = es := by
  induction es generalizing idx off with
  | nil => simp [layoutChain]
  | cons e rest ih => obtain ⟨sz, ty⟩ := e; simp [layoutChain, ih]

theorem layoutChain_indices (es : List (Nat × Nat)) (idx off : Nat) :
    (layoutChain es idx off).map Layout.index = List.range' idx es.length := by
  induction es generalizing idx off with
  | nil => simp [layoutChain]
  | cons e rest ih =>
      obtain ⟨sz, ty⟩ := e
      simp [layoutChain, ih, List.range'_succ]

theorem layoutChain_offsets (es : List (Nat × Nat)) (idx off : Nat) :
    (layoutChain es idx off).map Layout.offset = prefixSumsFrom off (es.map entryBytes) := by
  induction es generalizing idx off with
  | nil => simp [layoutChain, prefixSumsFrom]
  | cons e rest ih =>
      obtain ⟨sz, ty⟩ := e
      simp [layoutChain, ih, prefixSumsFrom, entryBytes]

theorem layoutChain_stride (es : List (Nat × Nat)) (idx off : Nat)
    (hne : es ≠ [])
    (hsup : ∀ e ∈ es, e.2 = GL_FLOAT ∨ e.2 = GL_UNSIGNED_SHORT) :
    calculate_stride (layoutChain es idx off) =
      Except.ok (off + (es.map entryBytes).sum) := by
  induction es generalizing idx off with
  | nil => exact absurd rfl hne
  | cons e rest ih =>
      obtain ⟨sz, ty⟩ := e
      cases rest with
      | nil =>
          have h := hsup (sz, ty) (by simp)
          have h : ty = GL_FLOAT ∨ ty = GL_UNSIGNED_SHORT := h
          rcases h with h | h <;> subst h <;>
            simp [layoutChain, calculate_stride, entryBytes, scalarBytes,
              GL_FLOAT, GL_UNSIGNED_SHORT]
      | cons e₂ rest₂ =>
          have hih := ih (idx + 1) (off + sz * scalarBytes ty) (by simp)
            (fun e he => hsup e (List.mem_cons_of_mem _ he))
          have hlast : (layoutChain ((sz, ty) :: e₂ :: rest₂) idx off).getLast? =
              (layoutChain (e₂ :: rest₂) (idx + 1) (off + sz * scalarBytes ty)).getLast? := by
            obtain ⟨sz₂, ty₂⟩ := e₂
            simp [layoutChain]
          simp only [calculate_stride, hlast] at hih ⊢
          rw [hih]
          congr 1
          simp [entryBytes]
          ring

theorem texcoordLayoutsAcc_eq (uvs : List Uv) (ls : List Layout) (off idx : Nat) :
    texcoordLayoutsAcc uvs ls off idx =
      (ls ++ layoutChain (uvs.map fun _ => (2, GL_FLOAT)) idx off,
       off + 8 * uvs.length, idx + uvs.length) := by
  induction uvs generalizing ls off idx with
  | nil => simp [texcoordLayoutsAcc, layoutChain]
  | cons u rest ih =>
      simp [texcoordLayoutsAcc, ih, layoutChain, scalarBytes, GL_FLOAT,
        Nat.mul_succ, Nat.add_assoc, Nat.add_comm, Nat.add_left_comm]

theorem colorLayoutsAcc_eq (cs : List Color) (ls : List Layout) (off idx : Nat) :
    colorLayoutsAcc cs ls off idx =
      (ls ++ layoutChain (cs.map fun c => (colorSize c, GL_FLOAT)) idx off,
       off + (cs.map (fun c => colorSize c * 4)).sum, idx + cs.length) := by
  induction cs generalizing ls off idx with
  | nil => simp [colorLayoutsAcc, layoutChain]
  | cons c rest ih =>
      simp [colorLayoutsAcc, ih, layoutChain, scalarBytes, GL_FLOAT,
        Nat.add_assoc, Nat.add_comm, Nat.add_left_comm]

/-- Closed form of the source's `determine_layouts`: it is the sequential
layout chain over exactly the attribute entries the spec prescribes,
starting at slot index 0 and byte offset 0. -/
theorem determine_layouts_eq_chain (vd : VertexData) :
    determine_layouts vd = layoutChain (spec_attribute_order vd) 0 0 := by
  cases hn : vd.normals <;> cases ht : vd.tangents <;>
    cases hj : vd.joints <;> cases hw : vd.weights <;>
      simp [determine_layouts, spec_attribute_order, hn, ht, hj, hw,
        texcoordLayoutsAcc_eq, colorLayoutsAcc_eq, layoutChain_append, layoutChain,
        entryBytes, scalarBytes, GL_FLOAT, GL_UNSIGNED_SHORT,
        Nat.add_assoc, Nat.add_comm, Nat.add_left_comm, Nat.mul_comm,
        List.map_map, Function.comp_def]

theorem layoutChain_bytes (es : List (Nat × Nat)) (idx off : Nat) :
    (layoutChain es idx off).map layoutBytes = es.map entryBytes := by
  induction es generalizing idx off with
  | nil => simp [layoutChain]
  | cons e rest ih =>
      obtain ⟨sz, ty⟩ := e
      simp [layoutChain, ih, layoutBytes, entryBytes]

/-- Claim C3: `determine_layouts` returns entries in the fixed spec order
(position, normals if present, tangents if present, texcoord sets in index
order, color sets in index order, joints if present, weights if present);
each entry's byte offset is the running sum of all prior entries'
(component count × component scalar size); and attribute slot indices are
assigned sequentially from 0. -/
theorem determine_layouts_spec (vd : VertexData) :
    (determine_layouts vd).map (fun l => (l.size, l.gl_type)) = spec_attribute_order vd ∧
    (determine_layouts vd).map Layout.offset =
      prefixSumsFrom 0 ((determine_layouts vd).map layoutBytes) ∧
    (determine_layouts vd).map Layout.index = List.range (determine_layouts vd).length := by
  rw [determine_layouts_eq_chain]
  refine ⟨layoutChain_kinds _ _ _, ?_, ?_⟩
  · rw [layoutChain_offsets, layoutChain_bytes]
  · rw [layoutChain_indices, layoutChain_length, List.range_eq_range']

/-- Sanity check from spec section 8: positions + normals + one texcoord set
derive a 32-byte (8-float) stride; positions only derive a 12-byte stride. -/
example :
    calculate_stride (determine_layouts
      { positions := [(0, 0, 0)], normals := some [(0, 0, 1)],
        tangents := none, texcoords := [⟨[(0, 0)]⟩], colors := [],
        joints := none, weights := none }) = Except.ok 32 ∧
    calculate_stride (determine_layouts
      { positions := [(0, 0, 0)], normals := none, tangents := none,
        texcoords := [], colors := [], joints := none, weights := none }) =
      Except.ok 12 := by
  constructor <;> rfl

/-! ## Interleaving: length and refusal behaviour -/

/-- The data-model invariant of spec section 3: every present optional
attribute array has length equal to `positions.len()`. -/
def wellFormed (vd : VertexData) : Bool :=
  (match vd.normals with
   | none => true
   | some xs => xs.length == vd.positions.length) &&
  (match vd.tangents with
   | none => true
   | some xs => xs.length == vd.positions.length) &&
  vd.texcoords.all (fun u => u.uvs.length == vd.positions.length) &&
  vd.colors.all (fun c => colorLen c == vd.positions.length) &&
  (match vd.joints with
   | none => true
   | some xs => xs.length == vd.positions.length) &&
  (match vd.weights with
   | none => true
   | some xs => xs.length == vd.positions.length)

/-- Number of floats one interleaved vertex record carries when joints and
weights are absent (all remaining attributes are 32-bit floats). -/
def vertexFloatCount (vd : VertexData) : Nat :=
  3 + (if vd.normals.isSome then 3 else 0) + (if vd.tangents.isSome then 4 else 0)
    + 2 * vd.texcoords.length + (vd.colors.map colorSize).sum

theorem uvRows_ok (uvs : List Uv) (i : Nat) (h : ∀ u ∈ uvs, i < u.uvs.length) :
    ∃ l, uvRows uvs i = Except.ok l ∧ l.length = 2 * uvs.length := by
  induction uvs with
  | nil => exact ⟨[], rfl, rfl⟩
  | cons u rest ih =>
      obtain ⟨l, hl, hlen⟩ := ih (fun v hv => h v (List.mem_cons_of_mem _ hv))
      have hu : i < u.uvs.length := h u (List.mem_cons_self _ _)
      refine ⟨vec2List (u.uvs.get ⟨i, hu⟩) ++ l, ?_, ?_⟩
      · simp [uvRows, List.getElem?_eq_getElem hu, hl]
      · simp only [List.length_append, hlen, vec2List, List.length_cons,
          List.length_nil]
        omega

theorem colorRows_ok (cs : List Color) (i : Nat) (h : ∀ c ∈ cs, i < colorLen c) :
    ∃ l, colorRows cs i = Except.ok l ∧ l.length = (cs.map colorSize).sum := by
  induction cs with
  | nil => exact ⟨[], rfl, rfl⟩
  | cons c rest ih =>
      obtain ⟨l, hl, hlen⟩ := ih (fun v hv => h v (List.mem_cons_of_mem _ hv))
      have hc : i < colorLen c := h c (List.mem_cons_self _ _)
      cases c with
      | Rgb vs =>
          have hc' : i < vs.length := hc
          refine ⟨vec3List (vs.get ⟨i, hc'⟩) ++ l, ?_, ?_⟩
          · simp [colorRows, List.getElem?_eq_getElem hc', hl]
          · simp only [List.length_append, hlen, vec3List, List.length_cons,
              List.length_nil, List.map_cons, List.sum_cons, colorSize]
      | Rgba vs =>
          have hc' : i < vs.length := hc
          refine ⟨vec4List (vs.get ⟨i, hc'⟩) ++ l, ?_, ?_⟩
          · simp [colorRows, List.getElem?_eq_getElem hc', hl]
          · simp only [List.length_append, hlen, vec4List, List.length_cons,
              List.length_nil, List.map_cons, List.sum_cons, colorSize]

theorem interleaveRow_ok (vd : VertexData) (hwf : wellFormed vd = true)
    (hj : vd.joints = none) (hw : vd.weights = none)
    (i : Nat) (hi : i < vd.positions.length) :
    ∃ row, interleaveRow vd i = Except.ok row ∧ row.length = vertexFloatCount vd := by
  simp only [wellFormed, Bool.and_eq_true, List.all_eq_true] at hwf
  obtain ⟨⟨⟨⟨⟨h1, h2⟩, h3⟩, h4⟩, _h5⟩, _h6⟩ := hwf
  obtain ⟨l₄, hl₄, hlen₄⟩ := uvRows_ok vd.texcoords i (by
    intro u hu
    have := h3 u hu
    simp only [beq_iff_eq] at this
    omega)
  obtain ⟨l₅, hl₅, hlen₅⟩ := colorRows_ok vd.colors i (by
    intro c hc
    have := h4 c hc
    simp only [beq_iff_eq] at this
    omega)
  cases hn : vd.normals with
  | none =>
      cases ht : vd.tangents with
      | none =>
          refine ⟨vec3List (vd.positions.get ⟨i, hi⟩) ++ [] ++ [] ++ l₄ ++ l₅, ?_, ?_⟩
          · simp [interleaveRow, List.getElem?_eq_getElem hi, hn, ht, hj, hw,
              optVecRow, hl₄, hl₅]
            rfl
          · simp [vertexFloatCount, vec3List, hlen₄, hlen₅, hn, ht]
            omega
      | some ts =>
          have hts : ts.length = vd.positions.length := by
            simp only [ht, beq_iff_eq] at h2; exact h2
          have hit : i < ts.length := by omega
          refine ⟨vec3List (vd.positions.get ⟨i, hi⟩) ++ [] ++ vec4List (ts.get ⟨i, hit⟩)
            ++ l₄ ++ l₅, ?_, ?_⟩
          · simp [interleaveRow, List.getElem?_eq_getElem hi, hn, ht, hj, hw,
              optVecRow, List.getElem?_eq_getElem hit, hl₄, hl₅]
            rfl
          · simp [vertexFloatCount, vec3List, vec4List, hlen₄, hlen₅, hn, ht]
            omega
  | some ns =>
      have hns : ns.length = vd.positions.length := by
        simp only [hn, beq_iff_eq] at h1; exact h1
      have hin : i < ns.length := by omega
      cases ht : vd.tangents with
      | none =>
          refine ⟨vec3List (vd.positions.get ⟨i, hi⟩) ++ vec3List (ns.get ⟨i, hin⟩) ++ []
            ++ l₄ ++ l₅, ?_, ?_⟩
          · simp [interleaveRow, List.getElem?_eq_getElem hi, hn, ht, hj, hw,
              optVecRow, List.getElem?_eq_getElem hin, hl₄, hl₅]
            rfl
          · simp [vertexFloatCount, vec3List, hlen₄, hlen₅, hn, ht]
            omega
      | some ts =>
          have hts : ts.length = vd.positions.length := by
            simp only [ht, beq_iff_eq] at h2; exact h2
          have hit : i < ts.length := by omega
          refine ⟨vec3List (vd.positions.get ⟨i, hi⟩) ++ vec3List (ns.get ⟨i, hin⟩)
            ++ vec4List (ts.get ⟨i, hit⟩) ++ l₄ ++ l₅, ?_, ?_⟩
          · simp [interleaveRow, List.getElem?_eq_getElem hi, hn, ht, hj, hw,
              optVecRow, List.getElem?_eq_getElem hin, List.getElem?_eq_getElem hit,
              hl₄, hl₅]
            rfl
          · simp [vertexFloatCount, vec3List, vec4List, hlen₄, hlen₅, hn, ht]
            omega

theorem interleaveUpTo_ok (vd : VertexData) (k : Nat)
    (hrow : ∀ i, i < vd.positions.length →
      ∃ row, interleaveRow vd i = Except.ok row ∧ row.length = k)
    (n : Nat) (hn : n ≤ vd.positions.length) :
    ∃ buf, interleaveUpTo vd n = Except.ok buf ∧ buf.length = n * k := by
  induction n with
  | zero => exact ⟨[], rfl, by simp⟩
  | succ m ih =>
      obtain ⟨buf, hbuf, hblen⟩ := ih (by omega)
      obtain ⟨row, hrw, hrlen⟩ := hrow m (by omega)
      refine ⟨buf ++ row, ?_, ?_⟩
      · simp [interleaveUpTo, hbuf, hrw]
      · simp [hblen, hrlen, Nat.succ_mul]

theorem sum_colorBytes (cs : List Color) :
    (cs.map (fun c => colorSize c * 4)).sum = 4 * (cs.map colorSize).sum := by
  induction cs with
  | nil => rfl
  | cons c rest ih => simp [ih]; ring

theorem spec_order_supported (vd : VertexData) :
    ∀ e ∈ spec_attribute_order vd, e.2 = GL_FLOAT ∨ e.2 = GL_UNSIGNED_SHORT := by
  intro e he
  simp only [spec_attribute_order, List.mem_append, List.mem_map,
    List.mem_singleton, List.mem_ite_nil_right] at he
  rcases he with ((((((rfl | ⟨-, rfl⟩) | ⟨-, rfl⟩) | ⟨u, -, rfl⟩) | ⟨c, -, rfl⟩) |
    ⟨-, rfl⟩) | ⟨-, rfl⟩) <;> simp

/-- With joints and weights absent every derived layout entry is a float
attribute, and the stride is 4 bytes per interleaved float. -/
theorem stride_no_skin (vd : VertexData) (hj : vd.joints = none) (hw : vd.weights = none) :
    calculate_stride (determine_layouts vd) = Except.ok (4 * vertexFloatCount vd) := by
  rw [determine_layouts_eq_chain]
  have hne : spec_attribute_order vd ≠ [] := by
    simp only [spec_attribute_order]
    intro h
    simpa using congrArg List.length h
  rw [layoutChain_stride _ _ _ hne (spec_order_supported vd)]
  congr 1
  simp only [spec_attribute_order, hj, hw, Option.isSome_none, Bool.false_eq_true,
    if_false, List.append_nil, List.map_append, List.sum_append, List.map_map,
    Function.comp_def, entryBytes, scalarBytes, vertexFloatCount]
  cases hn : vd.normals <;> cases ht : vd.tangents <;>
    simp [GL_FLOAT, GL_UNSIGNED_SHORT, sum_colorBytes, List.map_const',
      List.sum_replicate, smul_eq_mul, Nat.zero_add, entryBytes, scalarBytes] <;>
    omega

theorem interleaveRow_skin (vd : VertexData) (hwf : wellFormed vd = true)
    (i : Nat) (hi : i < vd.positions.length)
    (hjw : (vd.joints.isSome || vd.weights.isSome) = true) :
    interleaveRow vd i = Except.error InterleaveErr.jointsWeightsUnimplemented := by
  simp only [wellFormed, Bool.and_eq_true, List.all_eq_true] at hwf
  obtain ⟨⟨⟨⟨⟨h1, h2⟩, h3⟩, h4⟩, _h5⟩, _h6⟩ := hwf
  obtain ⟨l₄, hl₄, -⟩ := uvRows_ok vd.texcoords i (by
    intro u hu
    have := h3 u hu
    simp only [beq_iff_eq] at this
    omega)
  obtain ⟨l₅, hl₅, -⟩ := colorRows_ok vd.colors i (by
    intro c hc
    have := h4 c hc
    simp only [beq_iff_eq] at this
    omega)
  cases hn : vd.normals with
  | none =>
      cases ht : vd.tangents with
      | none =>
          simp [interleaveRow, List.getElem?_eq_getElem hi, hn, ht, optVecRow,
            hl₄, hl₅, hjw]
          rfl
      | some ts =>
          have hts : ts.length = vd.positions.length := by
            simp only [ht, beq_iff_eq] at h2; exact h2
          have hit : i < ts.length := by omega
          simp [interleaveRow, List.getElem?_eq_getElem hi, hn, ht, optVecRow,
            List.getElem?_eq_getElem hit, hl₄, hl₅, hjw]
          rfl
  | some ns =>
      have hns : ns.length = vd.positions.length := by
        simp only [hn, beq_iff_eq] at h1; exact h1
      have hin : i < ns.length := by omega
      cases ht : vd.tangents with
      | none =>
          simp [interleaveRow, List.getElem?_eq_getElem hi, hn, ht, optVecRow,
            List.getElem?_eq_getElem hin, hl₄, hl₅, hjw]
          rfl
      | some ts =>
          have hts : ts.length = vd.positions.length := by
            simp only [ht, beq_iff_eq] at h2; exact h2
          have hit : i < ts.length := by omega
          simp [interleaveRow, List.getElem?_eq_getElem hi, hn, ht, optVecRow,
            List.getElem?_eq_getElem hin, List.getElem?_eq_getElem hit,
            hl₄, hl₅, hjw]
          rfl

theorem interleaveUpTo_skin (vd : VertexData)
    (hrow : interleaveRow vd 0 = Except.error InterleaveErr.jointsWeightsUnimplemented)
    (n : Nat) (hn : 0 < n) :
    interleaveUpTo vd n = Except.error InterleaveErr.jointsWeightsUnimplemented := by
  induction n with
  | zero => omega
  | succ m ih =>
      cases Nat.eq_zero_or_pos m with
      | inl h0 => subst h0; simp [interleaveUpTo, hrow]
      | inr hpos => simp [interleaveUpTo, ih hpos]

/-- One-vertex skinned `VertexData`: joints are present and there is one
vertex, so the interleave refusal fires. -/
def skinnedOneVertex : VertexData :=
  { positions := [(0, 0, 0)], normals := none, tangents := none,
    texcoords := [], colors := [], joints := some [(0, 0, 0, 0)], weights := none }

/-- Claim C2, counterexample: a well-formed `VertexData` with one position
and a present joints array makes `interleave_vertex_data` panic (modelled
`Except.error`), so no buffer of `N × s` floats is produced although the
claim quantifies over any subset of the optional attributes. -/
theorem interleave_length_counterexample :
    interleave_vertex_data skinnedOneVertex =
      Except.error InterleaveErr.jointsWeightsUnimplemented ∧
    wellFormed skinnedOneVertex = true := by
  exact ⟨rfl, rfl⟩

/-- Claim C2 (amended): for every `VertexData` satisfying the data-model
length invariant in which joints and weights are absent,
`interleave_vertex_data` produces a buffer of exactly `N * s` floats,
where `N` is the number of positions and `s` is
`calculate_stride (determine_layouts vd)` divided by the 4-byte float size. -/
theorem interleave_length_spec (vd : VertexData) (hwf : wellFormed vd = true)
    (hj : vd.joints = none) (hw : vd.weights = none) :
    ∃ buf s, interleave_vertex_data vd = Except.ok buf ∧
      calculate_stride (determine_layouts vd) = Except.ok s ∧
      buf.length = vd.positions.length * (s / 4) := by
  obtain ⟨buf, hbuf, hlen⟩ := interleaveUpTo_ok vd (vertexFloatCount vd)
    (fun i hi => interleaveRow_ok vd hwf hj hw i hi) vd.positions.length le_rfl
  refine ⟨buf, 4 * vertexFloatCount vd, hbuf, stride_no_skin vd hj hw, ?_⟩
  rw [hlen, Nat.mul_div_cancel_left _ (by norm_num)]

/-- Two vertices with positions, normals and one texcoord set. -/
def twoVertexPNU : VertexData :=
  { positions := [(0, 0, 0), (1, 0, 0)], normals := some [(0, 0, 1), (0, 1, 0)],
    tangents := none, texcoords := [⟨[(0, 0), (1, 1)]⟩], colors := [],
    joints := none, weights := none }

/-- Claim C2 witness: positions + normals + one texcoord set, two vertices;
the buffer has 2 × (32 / 4) = 16 floats. -/
theorem interleave_length_spec_witness :
    wellFormed twoVertexPNU = true ∧
    ∃ buf s,
      interleave_vertex_data twoVertexPNU = Except.ok buf ∧
      calculate_stride (determine_layouts twoVertexPNU) = Except.ok s ∧
      buf.length = twoVertexPNU.positions.length * (s / 4) :=
  ⟨rfl, interleave_length_spec twoVertexPNU rfl rfl rfl⟩

/-- Claim C4, counterexample: with joints present but zero vertices the
function does not refuse; it returns the empty buffer, because the
refusal check only runs inside the per-vertex loop. -/
theorem interleave_skin_counterexample :
    interleave_vertex_data
      { positions := [], normals := none, tangents := none, texcoords := [],
        colors := [], joints := some [], weights := none } = Except.ok [] := by
  rfl

/-- Claim C4 (amended): for every well-formed `VertexData` with at least one
vertex in which joints or weights are present, `interleave_vertex_data`
refuses to interleave, reporting the unimplemented-feature panic instead of
returning a buffer. -/
theorem interleave_skin_refusal (vd : VertexData) (hwf : wellFormed vd = true)
    (hne : vd.positions ≠ [])
    (hjw : (vd.joints.isSome || vd.weights.isSome) = true) :
    interleave_vertex_data vd = Except.error InterleaveErr.jointsWeightsUnimplemented := by
  have hpos : 0 < vd.positions.length := List.length_pos.mpr hne
  exact interleaveUpTo_skin vd (interleaveRow_skin vd hwf 0 hpos hjw)
    vd.positions.length hpos

/-- Claim C4 witness: the one-vertex skinned data is refused. -/
theorem interleave_skin_refusal_witness :
    wellFormed skinnedOneVertex = true ∧
    skinnedOneVertex.positions ≠ [] ∧
    (skinnedOneVertex.joints.isSome || skinnedOneVertex.weights.isSome) = true ∧
    interleave_vertex_data skinnedOneVertex =
      Except.error InterleaveErr.jointsWeightsUnimplemented :=
  ⟨rfl, by decide, rfl, interleave_skin_refusal skinnedOneVertex rfl (by decide) rfl⟩

/-- Claim C10: with an empty positions array `interleave_vertex_data`
returns the empty buffer and never reaches the joints/weights refusal,
whatever the other fields hold. -/
theorem interleave_empty_positions (vd : VertexData) (h : vd.positions = []) :
    interleave_vertex_data vd = Except.ok [] := by
  simp [interleave_vertex_data, h, interleaveUpTo]

/-- Claim C10 witness: zero vertices with joints and weights both present. -/
theorem interleave_empty_positions_witness :
    (({ positions := [], normals := none, tangents := none, texcoords := [],
        colors := [], joints := some [(0, 0, 0, 0)],
        weights := some [(1, 0, 0, 0)] } : VertexData)).joints.isSome = true ∧
    interleave_vertex_data
      { positions := [], normals := none, tangents := none, texcoords := [],
        colors := [], joints := some [(0, 0, 0, 0)],
        weights := some [(1, 0, 0, 0)] } = Except.ok [] :=
  ⟨rfl, interleave_empty_positions _ rfl⟩

/-- Claim C6, counterexample: a non-empty layout list whose final entry has
a component type other than `FLOAT`/`UNSIGNED_SHORT` (here `glow::INT`,
0x1404) makes `calculate_stride` panic instead of returning a stride. -/
theorem calculate_stride_counterexample :
    calculate_stride [⟨0, 3, 5124, false, 0⟩] =
      Except.error "Unsupported attribute type" := by
  rfl

/-- Claim C6 (amended): for every non-empty layout sequence whose final
entry's component type is one the program emits (`FLOAT` or
`UNSIGNED_SHORT`), `calculate_stride` returns the final entry's byte offset
plus its own byte size (component count × component scalar size); on the
empty sequence it fails with an error. -/
theorem calculate_stride_spec :
    (∀ (layouts : List Layout) (last : Layout), layouts.getLast? = some last →
      (last.gl_type = GL_FLOAT ∨ last.gl_type = GL_UNSIGNED_SHORT) →
      calculate_stride layouts =
        Except.ok (last.offset + last.size * scalarBytes last.gl_type)) ∧
    calculate_stride [] = Except.error "No layouts provided to calculate stride!" := by
  refine ⟨?_, rfl⟩
  intro layouts last hl hsup
  rcases hsup with h | h <;>
    simp [calculate_stride, hl, h, scalarBytes, GL_FLOAT, GL_UNSIGNED_SHORT]

/-- Claim C6 witness: a two-entry layout list ending in an
`UNSIGNED_SHORT` joints entry: stride = 12 + 4 × 2. -/
theorem calculate_stride_spec_witness :
    calculate_stride [⟨0, 3, GL_FLOAT, false, 0⟩, ⟨1, 4, GL_UNSIGNED_SHORT, false, 12⟩] =
      Except.ok (12 + 4 * scalarBytes GL_UNSIGNED_SHORT) :=
  calculate_stride_spec.1
    [⟨0, 3, GL_FLOAT, false, 0⟩, ⟨1, 4, GL_UNSIGNED_SHORT, false, 12⟩]
    ⟨1, 4, GL_UNSIGNED_SHORT, false, 12⟩ rfl (Or.inr rfl)

/-! ## Loader data model (loader.rs / handles.rs) -/

/-- `LoadedTexture` (fields from its construction at `loader.rs` lines 275-281
and spec section 3): decoded, flipped, RGBA8 pixel data. -/
structure LoadedTexture where
  path : String
  name : String
  width : Nat
  height : Nat
  data : List U8
deriving DecidableEq

/-- `LoadedMaterial` (fields from its construction at `loader.rs` lines
129-170 and spec section 3).  Texture references are stored as paths. -/
structure LoadedMaterial where
  base_color_texture : Option String
  metallic_roughness_texture : Option String
  normal_texture : Option String
  occlusion_texture : Option String
  emissive_texture : Option String
  base_color_factor : Color
  metallic_factor : ℚ
  roughness_factor : ℚ
  alpha_mode : Bool
  double_sided : Bool
deriving DecidableEq

/-- `LoadedPrimitive` (fields from its construction at `loader.rs` lines
172-176 and spec section 3). -/
structure LoadedPrimitive where
  vertex_data : VertexData
  material : Option LoadedMaterial
  indices : Option (List Nat)
deriving DecidableEq

/-- `LoadedMesh` (fields from its construction at `loader.rs` lines 180-184
and spec section 3). -/
structure LoadedMesh where
  name : String
  path : String
  primitives : List LoadedPrimitive
deriving DecidableEq

/-- `CompiledShaderProgram`: never constructed by the loader; only its
existence matters for the `Asset`/`AssetLoader` shapes. -/
structure CompiledShaderProgram where
  program : Nat
deriving DecidableEq

/-- `handles.rs` line 4: `TextureHandle(pub usize)`. -/
structure TextureHandle where
  val : Nat
deriving DecidableEq

/-- `handles.rs` line 7: `MeshHandle(pub usize)`. -/
structure MeshHandle where
  val : Nat
deriving DecidableEq

/-- `handles.rs` line 10: `MaterialHandle(pub usize)`. -/
structure MaterialHandle where
  val : Nat
deriving DecidableEq

/-- `handles.rs` line 13: `ShaderHandle(pub usize)`. -/
structure ShaderHandle where
  val : Nat
deriving DecidableEq

/-- `handles.rs` lines 15-21: `AssetHandle`. -/
inductive AssetHandle where
  | Texture (h : TextureHandle)
  | Mesh (h : MeshHandle)
  | Material (h : MaterialHandle)
  | Shader (h : ShaderHandle)
deriving DecidableEq

/-- `handles.rs` lines 24-30. -/
def AssetHandle.as_mesh_handle : AssetHandle → Option MeshHandle
  | .Mesh h => some h
  | _ => none

/-- `handles.rs` lines 32-38. -/
def AssetHandle.as_texture_handle : AssetHandle → Option TextureHandle
  | .Texture h => some h
  | _ => none

/-- `loader.rs` lines 187-194: `Asset`. -/
inductive Asset where
  | Texture (t : LoadedTexture)
  | Mesh (m : LoadedMesh)
  | Material (m : LoadedMaterial)
  | Shader (s : CompiledShaderProgram)
deriving DecidableEq

/-- `loader.rs` lines 230-234: `AssetRequest` (payloads are `(PathBuf, String)`). -/
inductive AssetRequest where
  | LoadTexture (path : String) (name : String)
  | LoadMesh (path : String) (name : String)
deriving DecidableEq

/-! ## The gltf-crate boundary

`load_gltf_full` reads the model through the external `gltf` crate: the
opened document exposes buffer sources, and each primitive's reader exposes
decoded attribute streams.  The embedding abstracts the crate at that
boundary: a `GltfPrimitive` carries exactly the values the reader calls
(`read_positions`, `read_normals`, ..., `read_colors(0)`, `read_indices`)
return, and the document carries its buffer-source list and optional GLB
blob. -/

/-- `gltf::image::Source`: a URI path or a buffer view (embedded image). -/
inductive ImageSource where
  | uri (path : String)
  | view
deriving DecidableEq

/-- The gltf material data `load_gltf_full` consults (`loader.rs` lines
126-170): five texture slots, PBR factors, alpha mode and double-sidedness. -/
structure GMaterial where
  base_color_texture : Option ImageSource
  metallic_roughness_texture : Option ImageSource
  normal_texture : Option ImageSource
  occlusion_texture : Option ImageSource
  emissive_texture : Option ImageSource
  base_color_factor : Vec4
  metallic_factor : ℚ
  roughness_factor : ℚ
  alpha_blend : Bool
  double_sided : Bool
deriving DecidableEq

/-- `gltf::mesh::util::ReadColors`: the six source encodings of a color set. -/
inductive ReadColors where
  | RgbU8 (cs : List (U8 × U8 × U8))
  | RgbaU8 (cs : List (U8 × U8 × U8 × U8))
  | RgbU16 (cs : List (U16 × U16 × U16))
  | RgbaU16 (cs : List (U16 × U16 × U16 × U16))
  | RgbF32 (cs : List Vec3)
  | RgbaF32 (cs : List Vec4)
deriving DecidableEq

/-- One gltf primitive as seen through its reader. -/
structure GltfPrimitive where
  positions : Option (List Vec3)
  normals : Option (List Vec3)
  tangents : Option (List Vec4)
  texcoords0 : Option (List Vec2)
  texcoords1 : Option (List Vec2)
  colors0 : Option ReadColors
  joints0 : Option (List JointVec)
  weights0 : Option (List Vec4)
  indices : Option (List Nat)
  material : GMaterial
deriving DecidableEq

/-- `gltf::buffer::Source`: a URI (sibling file) or the inline GLB chunk. -/
inductive BufferSource where
  | uri (u : String)
  | bin
deriving DecidableEq

/-- An opened gltf document: GLB blob, buffer-source list, and the meshes'
primitives (one inner list per mesh). -/
structure GltfDoc where
  blob : Option (List U8)
  buffers : List BufferSource
  meshes : List (List GltfPrimitive)
deriving DecidableEq

/-- The normalization applied to an 8-bit color channel
(`loader.rs` lines 85-97): `c as f32 / 255.0`. -/
def u8q (c : U8) : ℚ := (c.val : ℚ) / 255

/-- The color-decoding match of `load_gltf_full` (`loader.rs` lines 82-112):
the list of color sets pushed onto `vertex_data.colors`.  8-bit channels are
divided by 255; float channels are pushed unchanged; 16-bit encodings only
print a TODO, pushing nothing. -/
def decode_colors0 : ReadColors → List Color
  | .RgbU8 cs =>
      [Color.Rgb (cs.map (fun c => (u8q c.1, u8q c.2.1, u8q c.2.2)))]
  | .RgbaU8 cs =>
      [Color.Rgba (cs.map (fun c => (u8q c.1, u8q c.2.1, u8q c.2.2.1, u8q c.2.2.2)))]
  | .RgbF32 cs => [Color.Rgb cs]
  | .RgbaF32 cs => [Color.Rgba cs]
  | .RgbU16 _ => []
  | .RgbaU16 _ => []

/-- One material texture slot of `load_gltf_full` (`loader.rs` lines
130-164): URI sources keep their path, buffer-view sources become `None`. -/
def resolve_texture_slot : Option ImageSource → Option String
  | some (.uri u) => some u
  | some .view => none
  | none => none

/-- The `LoadedMaterial` construction of `load_gltf_full`
(`loader.rs` lines 129-170). -/
def resolveMaterial (m : GMaterial) : LoadedMaterial :=
  { base_color_texture := resolve_texture_slot m.base_color_texture
    metallic_roughness_texture := resolve_texture_slot m.metallic_roughness_texture
    normal_texture := resolve_texture_slot m.normal_texture
    occlusion_texture := resolve_texture_slot m.occlusion_texture
    emissive_texture := resolve_texture_slot m.emissive_texture
    base_color_factor := Color.Rgba [m.base_color_factor]
    metallic_factor := m.metallic_factor
    roughness_factor := m.roughness_factor
    alpha_mode := m.alpha_blend
    double_sided := m.double_sided }

/-- The per-primitive body of `load_gltf_full` (`loader.rs` lines 37-176):
missing positions abort the whole load; every other stream is optional. -/
def load_gltf_primitive (p : GltfPrimitive) : Except String LoadedPrimitive :=
  match p.positions with
  | none => Except.error "GLTF mesh is missing positions!"
  | some pos =>
      let vd : VertexData :=
        { positions := pos
          normals := p.normals
          tangents := p.tangents
          texcoords :=
            (match p.texcoords0 with
             | some t => [Uv.mk t]
             | none => []) ++
            (match p.texcoords1 with
             | some t => [Uv.mk t]
             | none => [])
          colors :=
            match p.colors0 with
            | some rc => decode_colors0 rc
            | none => []
          joints := p.joints0
          weights := p.weights0 }
      Except.ok
        { vertex_data := vd
          material := some (resolveMaterial p.material)
          indices := p.indices }

/-- External IO of the loader worker: opening a gltf file, reading a buffer
file from disk, decoding an image (the decoded image is already flipped and
converted to RGBA8, as `image::open(..).flipv().to_rgba8()` yields it):
width, height, raw pixels. -/
structure LoaderEnv where
  gltfOpen : String → Except String GltfDoc
  readFile : String → Except String (List U8)
  imageOpen : String → Except String (Nat × Nat × List U8)

/-- `Path::parent().join(uri)`, for paths using `/` separators. -/
def pathParentJoin (p uri : String) : String :=
  String.intercalate "/" ((p.splitOn "/").dropLast) ++ "/" ++ uri

/-- `Path::file_name()` as a string, for paths using `/` separators. -/
def pathFileName (p : String) : String := (p.splitOn "/").getLastD ""

/-- The buffer-loading loop of `load_gltf_full` (`loader.rs` lines 21-32):
URI sources are read from disk relative to the model file's directory;
`Bin` sources require the GLB blob. -/
def loadBuffers (env : LoaderEnv) (path : String) (blob : Option (List U8)) :
    List BufferSource → Except String (List (List U8))
  | [] => Except.ok []
  | b :: rest =>
      match (match b with
             | BufferSource.uri u => env.readFile (pathParentJoin path u)
             | BufferSource.bin =>
                 match blob with
                 | some bl => Except.ok bl
                 | none => Except.error "GLB binary chunk missing") with
      | Except.error e => Except.error e
      | Except.ok d =>
          match loadBuffers env path blob rest with
          | Except.error e => Except.error e
          | Except.ok ds => Except.ok (d :: ds)

/-- The inner primitive loop of `load_gltf_full` within one mesh. -/
def loadPrimitivesOfMesh : List GltfPrimitive → Except String (List LoadedPrimitive)
  | [] => Except.ok []
  | p :: rest =>
      match load_gltf_primitive p with
      | Except.error e => Except.error e
      | Except.ok lp =>
          match loadPrimitivesOfMesh rest with
          | Except.error e => Except.error e
          | Except.ok lps => Except.ok (lp :: lps)

/-- The nested mesh/primitive loops of `load_gltf_full`
(`loader.rs` lines 36-178), accumulating into one primitive list. -/
def loadAllPrimitives : List (List GltfPrimitive) → Except String (List LoadedPrimitive)
  | [] => Except.ok []
  | m :: rest =>
      match loadPrimitivesOfMesh m with
      | Except.error e => Except.error e
      | Except.ok lps =>
          match loadAllPrimitives rest with
          | Except.error e => Except.error e
          | Except.ok lps2 => Except.ok (lps ++ lps2)

/-- `loader.rs` lines 14-185: `load_gltf_full`. -/
def load_gltf_full (env : LoaderEnv) (path : String) : Except String LoadedMesh :=
  match env.gltfOpen path with
  | Except.error e => Except.error e
  | Except.ok gltf =>
      match loadBuffers env path gltf.blob gltf.buffers with
      | Except.error e => Except.error e
      | Except.ok _raw_buffers =>
          match loadAllPrimitives gltf.meshes with
          | Except.error e => Except.error e
          | Except.ok prims =>
              Except.ok { name := pathFileName path, path := path, primitives := prims }

/-- The worker's observable state: the shared handle counter
(`Arc<Mutex<usize>>`, starting at 0 in `AssetLoader::new`) and the
sequence of `(handle, asset)` pairs sent on the result channel. -/
structure WorkerState where
  next_handle_id : Nat
  results : List (AssetHandle × Asset)
deriving DecidableEq

/-- One iteration of the worker loop of `AssetLoader::new`
(`loader.rs` lines 259-327): decode, mint a handle under the mutex,
publish; on decode failure log and continue, leaving the state unchanged. -/
def workerStep (env : LoaderEnv) (s : WorkerState) (req : AssetRequest) : WorkerState :=
  match req with
  | .LoadTexture path name =>
      match env.imageOpen path with
      | Except.error _ => s
      | Except.ok (w, h, data) =>
          { next_handle_id := s.next_handle_id + 1,
            results := s.results ++
              [(AssetHandle.Texture ⟨s.next_handle_id⟩,
                Asset.Texture { path := path, name := name, width := w, height := h,
                                data := data })] }
  | .LoadMesh path name =>
      match load_gltf_full env path with
      | Except.error _ => s
      | Except.ok lm =>
          { next_handle_id := s.next_handle_id + 1,
            results := s.results ++
              [(AssetHandle.Mesh ⟨s.next_handle_id⟩,
                Asset.Mesh { lm with name := name })] }

/-- The worker loop over a finite request sequence.  The mutex around the
shared counter makes every mint atomic, so any interleaving of issuers
linearizes to such a sequence. -/
def workerRun (env : LoaderEnv) (s : WorkerState) : List AssetRequest → WorkerState :=
  List.foldl (workerStep env) s

/-- `AssetLoader::new` starts the counter at 0 with nothing published. -/
def initState : WorkerState := ⟨0, []⟩

/-- The numeric value inside a handle. -/
def handleValue : AssetHandle → Nat
  | .Texture h => h.val
  | .Mesh h => h.val
  | .Material h => h.val
  | .Shader h => h.val

/-- Whether the decode of a request succeeds under the environment. -/
def requestSucceeds (env : LoaderEnv) : AssetRequest → Bool
  | .LoadTexture p _ =>
      match env.imageOpen p with
      | Except.ok _ => true
      | Except.error _ => false
  | .LoadMesh p _ =>
      match load_gltf_full env p with
      | Except.ok _ => true
      | Except.error _ => false

/-! ## Worker invariants -/

/-- The handle values the worker has published so far. -/
def publishedValues (s : WorkerState) : List Nat :=
  s.results.map (fun pr => handleValue pr.1)

theorem workerStep_bound (env : LoaderEnv) (s : WorkerState) (r : AssetRequest)
    (h : ∀ v ∈ publishedValues s, v < s.next_handle_id) :
    ∀ v ∈ publishedValues (workerStep env s r), v < (workerStep env s r).next_handle_id := by
  cases r with
  | LoadTexture p n =>
      cases himg : env.imageOpen p with
      | error e => simpa [workerStep, himg] using h
      | ok v =>
          obtain ⟨w, hh, d⟩ := v
          intro x hx
          simp only [workerStep, himg, publishedValues, List.map_append, List.mem_append,
            List.map_cons, List.map_nil, List.mem_singleton] at hx ⊢
          rcases hx with hx | hx
          · have := h x hx
            omega
          · simp only [hx, handleValue]
            omega
  | LoadMesh p n =>
      cases hm : load_gltf_full env p with
      | error e => simpa [workerStep, hm] using h
      | ok lm =>
          intro x hx
          simp only [workerStep, hm, publishedValues, List.map_append, List.mem_append,
            List.map_cons, List.map_nil, List.mem_singleton] at hx ⊢
          rcases hx with hx | hx
          · have := h x hx
            omega
          · simp only [hx, handleValue]
            omega

theorem workerStep_nodup (env : LoaderEnv) (s : WorkerState) (r : AssetRequest)
    (hb : ∀ v ∈ publishedValues s, v < s.next_handle_id)
    (hn : (publishedValues s).Nodup) :
    (publishedValues (workerStep env s r)).Nodup := by
  cases r with
  | LoadTexture p n =>
      cases himg : env.imageOpen p with
      | error e => simpa [workerStep, himg] using hn
      | ok v =>
          obtain ⟨w, hh, d⟩ := v
          simp only [workerStep, himg, publishedValues, List.map_append,
            List.map_cons, List.map_nil]
          rw [List.nodup_append]
          refine ⟨hn, List.nodup_singleton _, ?_⟩
          intro x hx
          have := hb x hx
          simp [handleValue]
          omega
  | LoadMesh p n =>
      cases hm : load_gltf_full env p with
      | error e => simpa [workerStep, hm] using hn
      | ok lm =>
          simp only [workerStep, hm, publishedValues, List.map_append,
            List.map_cons, List.map_nil]
          rw [List.nodup_append]
          refine ⟨hn, List.nodup_singleton _, ?_⟩
          intro x hx
          have := hb x hx
          simp [handleValue]
          omega

theorem workerRun_inv (env : LoaderEnv) (reqs : List AssetRequest) (s : WorkerState)
    (hb : ∀ v ∈ publishedValues s, v < s.next_handle_id)
    (hn : (publishedValues s).Nodup) :
    (∀ v ∈ publishedValues (workerRun env s reqs),
      v < (workerRun env s reqs).next_handle_id) ∧
    (publishedValues (workerRun env s reqs)).Nodup := by
  induction reqs generalizing s with
  | nil => exact ⟨hb, hn⟩
  | cons r rest ih =>
      exact ih (workerStep env s r) (workerStep_bound env s r hb)
        (workerStep_nodup env s r hb hn)

theorem workerStep_success_length (env : LoaderEnv) (s : WorkerState) (r : AssetRequest)
    (h : requestSucceeds env r = true) :
    (workerStep env s r).results.length = s.results.length + 1 := by
  cases r with
  | LoadTexture p n =>
      cases himg : env.imageOpen p with
      | error e => simp [requestSucceeds, himg] at h
      | ok v => obtain ⟨w, hh, d⟩ := v; simp [workerStep, himg]
  | LoadMesh p n =>
      cases hm : load_gltf_full env p with
      | error e => simp [requestSucceeds, hm] at h
      | ok lm => simp [workerStep, hm]

theorem workerRun_success_length (env : LoaderEnv) (reqs : List AssetRequest)
    (s : WorkerState) (h : ∀ r ∈ reqs, requestSucceeds env r = true) :
    (workerRun env s reqs).results.length = s.results.length + reqs.length := by
  induction reqs generalizing s with
  | nil => simp [workerRun]
  | cons r rest ih =>
      have hstep := workerStep_success_length env s r (h r (List.mem_cons_self _ _))
      have := ih (workerStep env s r) (fun x hx => h x (List.mem_cons_of_mem _ hx))
      simp only [workerRun, List.foldl_cons, List.length_cons] at this ⊢
      rw [this, hstep]
      omega

/-- Claim C1: every handle the worker mints comes from the single shared
counter, so across any request sequence the published handle values are
pairwise distinct, and when every decode succeeds the worker publishes
exactly one result per request (200 requests give 200 distinct handles). -/
theorem handle_mint_unique (env : LoaderEnv) (reqs : List AssetRequest) :
    (publishedValues (workerRun env initState reqs)).Nodup ∧
    ((∀ r ∈ reqs, requestSucceeds env r = true) →
      (workerRun env initState reqs).results.length = reqs.length) := by
  constructor
  · exact (workerRun_inv env reqs initState (by simp [publishedValues, initState])
      (by simp [publishedValues, initState])).2
  · intro h
    have := workerRun_success_length env reqs initState h
    simpa [initState] using this

/-- An environment in which every decode succeeds: image decoding always
yields a 1×1 image and every gltf file opens as an empty document. -/
def envAllOk : LoaderEnv :=
  { gltfOpen := fun _ => Except.ok { blob := none, buffers := [], meshes := [] }
    readFile := fun _ => Except.ok []
    imageOpen := fun _ => Except.ok (1, 1, []) }

/-- 100 texture requests and 100 mesh requests. -/
def reqs200 : List AssetRequest :=
  List.replicate 100 (AssetRequest.LoadTexture "t.png" "t") ++
    List.replicate 100 (AssetRequest.LoadMesh "m.gltf" "m")

/-- Claim C1 witness: under `envAllOk` all 200 requests succeed, the
published handle values are distinct, and exactly 200 results appear. -/
theorem handle_mint_unique_witness :
    (∀ r ∈ reqs200, requestSucceeds envAllOk r = true) ∧
    (publishedValues (workerRun envAllOk initState reqs200)).Nodup ∧
    (workerRun envAllOk initState reqs200).results.length = 200 := by
  have hsucc : ∀ r ∈ reqs200, requestSucceeds envAllOk r = true := by
    intro r hr
    rcases List.mem_append.mp hr with h | h <;>
      rw [List.eq_of_mem_replicate h] <;> rfl
  refine ⟨hsucc, (handle_mint_unique envAllOk reqs200).1, ?_⟩
  rw [(handle_mint_unique envAllOk reqs200).2 hsucc]
  rfl

/-- A published pair has matching handle/asset variants and its typed
unwrap succeeds. -/
def matchedPair (pr : AssetHandle × Asset) : Prop :=
  (∃ th t, pr = (AssetHandle.Texture th, Asset.Texture t) ∧
    pr.1.as_texture_handle = some th) ∨
  (∃ mh m, pr = (AssetHandle.Mesh mh, Asset.Mesh m) ∧
    pr.1.as_mesh_handle = some mh)

theorem workerStep_matched (env : LoaderEnv) (s : WorkerState) (r : AssetRequest)
    (h : ∀ pr ∈ s.results, matchedPair pr) :
    ∀ pr ∈ (workerStep env s r).results, matchedPair pr := by
  intro pr hpr
  cases r with
  | LoadTexture p n =>
      cases himg : env.imageOpen p with
      | error e =>
          rw [workerStep, himg] at hpr
          exact h pr hpr
      | ok v =>
          obtain ⟨w, hh, d⟩ := v
          simp only [workerStep, himg, List.mem_append, List.mem_singleton] at hpr
          rcases hpr with hpr | hpr
          · exact h pr hpr
          · subst hpr
            exact Or.inl ⟨_, _, rfl, rfl⟩
  | LoadMesh p n =>
      cases hm : load_gltf_full env p with
      | error e =>
          rw [workerStep, hm] at hpr
          exact h pr hpr
      | ok lm =>
          simp only [workerStep, hm, List.mem_append, List.mem_singleton] at hpr
          rcases hpr with hpr | hpr
          · exact h pr hpr
          · subst hpr
            exact Or.inr ⟨_, _, rfl, rfl⟩

/-- Claim C9: every pair the worker publishes pairs a texture handle with a
texture asset or a mesh handle with a mesh asset, so the integration
code's `as_texture_handle()`/`as_mesh_handle()` unwraps always succeed. -/
theorem published_pairs_matched (env : LoaderEnv) (reqs : List AssetRequest) :
    ∀ pr ∈ (workerRun env initState reqs).results, matchedPair pr := by
  have : ∀ s : WorkerState, (∀ pr ∈ s.results, matchedPair pr) →
      ∀ pr ∈ (workerRun env s reqs).results, matchedPair pr := by
    induction reqs with
    | nil => exact fun s h => h
    | cons r rest ih =>
        intro s h
        exact ih (workerStep env s r) (workerStep_matched env s r h)
  exact this initState (by simp [initState])

/-- Claim C9 witness: after one texture and one mesh request under
`envAllOk`, the first published pair is (Texture handle 0, texture asset)
and is matched. -/
theorem published_pairs_matched_witness :
    (AssetHandle.Texture ⟨0⟩,
      Asset.Texture { path := "t.png", name := "t", width := 1, height := 1, data := [] }) ∈
      (workerRun envAllOk initState
        [AssetRequest.LoadTexture "t.png" "t", AssetRequest.LoadMesh "m.gltf" "m"]).results ∧
    matchedPair (AssetHandle.Texture ⟨0⟩,
      Asset.Texture { path := "t.png", name := "t", width := 1, height := 1, data := [] }) :=
  ⟨by decide, published_pairs_matched envAllOk
    [AssetRequest.LoadTexture "t.png" "t", AssetRequest.LoadMesh "m.gltf" "m"]
    _ (by decide)⟩

theorem loadPrimitivesOfMesh_err (prims : List GltfPrimitive)
    (h : ∃ p ∈ prims, p.positions = none) :
    ∃ e, loadPrimitivesOfMesh prims = Except.error e := by
  induction prims with
  | nil => simp at h
  | cons p rest ih =>
      rcases h with ⟨q, hq, hqpos⟩
      rcases List.mem_cons.mp hq with rfl | hq
      · exact ⟨"GLTF mesh is missing positions!",
          by simp [loadPrimitivesOfMesh, load_gltf_primitive, hqpos]⟩
      · cases hp : load_gltf_primitive p with
        | error e => exact ⟨e, by simp [loadPrimitivesOfMesh, hp]⟩
        | ok lp =>
            obtain ⟨e, he⟩ := ih ⟨q, hq, hqpos⟩
            exact ⟨e, by simp [loadPrimitivesOfMesh, hp, he]⟩

theorem loadAllPrimitives_err (meshes : List (List GltfPrimitive))
    (h : ∃ m ∈ meshes, ∃ p ∈ m, p.positions = none) :
    ∃ e, loadAllPrimitives meshes = Except.error e := by
  induction meshes with
  | nil => simp at h
  | cons m rest ih =>
      rcases h with ⟨m', hm', p, hp, hppos⟩
      rcases List.mem_cons.mp hm' with rfl | hm'
      · obtain ⟨e, he⟩ := loadPrimitivesOfMesh_err m' ⟨p, hp, hppos⟩
        exact ⟨e, by simp [loadAllPrimitives, he]⟩
      · cases hm : loadPrimitivesOfMesh m with
        | error e => exact ⟨e, by simp [loadAllPrimitives, hm]⟩
        | ok lps =>
            obtain ⟨e, he⟩ := ih ⟨m', hm', p, hp, hppos⟩
            exact ⟨e, by simp [loadAllPrimitives, hm, he]⟩

/-- Claim C5: when the opened model contains a primitive with no position
stream, the whole load fails: `load_gltf_full` returns an error, and the
worker's mesh branch publishes nothing and leaves the handle counter
untouched (the state is returned unchanged). -/
theorem missing_positions_fails (env : LoaderEnv) (path name : String)
    (doc : GltfDoc) (s : WorkerState)
    (hopen : env.gltfOpen path = Except.ok doc)
    (hbad : ∃ m ∈ doc.meshes, ∃ p ∈ m, p.positions = none) :
    (∃ e, load_gltf_full env path = Except.error e) ∧
    workerStep env s (AssetRequest.LoadMesh path name) = s := by
  have herr : ∃ e, load_gltf_full env path = Except.error e := by
    obtain ⟨e, he⟩ := loadAllPrimitives_err doc.meshes hbad
    cases hb : loadBuffers env path doc.blob doc.buffers with
    | error e2 => exact ⟨e2, by simp [load_gltf_full, hopen, hb]⟩
    | ok bs => exact ⟨e, by simp [load_gltf_full, hopen, hb, he]⟩
  obtain ⟨e, he⟩ := herr
  exact ⟨⟨e, he⟩, by simp [workerStep, he]⟩

/-- A gltf material with no texture slots. -/
def gmatNone : GMaterial :=
  { base_color_texture := none, metallic_roughness_texture := none,
    normal_texture := none, occlusion_texture := none, emissive_texture := none,
    base_color_factor := (1, 1, 1, 1), metallic_factor := 1, roughness_factor := 1,
    alpha_blend := false, double_sided := false }

/-- A primitive with no position stream at all. -/
def primNoPositions : GltfPrimitive :=
  { positions := none, normals := none, tangents := none, texcoords0 := none,
    texcoords1 := none, colors0 := none, joints0 := none, weights0 := none,
    indices := none, material := gmatNone }

/-- An environment whose only model file opens to a document holding one
primitive without positions. -/
def envBadMesh : LoaderEnv :=
  { gltfOpen := fun _ =>
      Except.ok { blob := none, buffers := [], meshes := [[primNoPositions]] }
    readFile := fun _ => Except.ok []
    imageOpen := fun _ => Except.ok (1, 1, []) }

/-- Claim C5 witness: the bad document makes the load fail and the worker
step is a no-op on the state. -/
theorem missing_positions_fails_witness :
    (∃ e, load_gltf_full envBadMesh "bad.gltf" = Except.error e) ∧
    workerStep envBadMesh initState (AssetRequest.LoadMesh "bad.gltf" "bad") = initState :=
  missing_positions_fails envBadMesh "bad.gltf" "bad"
    { blob := none, buffers := [], meshes := [[primNoPositions]] } initState rfl
    ⟨[primNoPositions], by simp, primNoPositions, by simp, rfl⟩

/-- The relation between a gltf image-source slot and the stored material
slot: URI sources keep their path, buffer-view (embedded) sources and
absent slots store no texture. -/
def slotFollows (src : Option ImageSource) (dst : Option String) : Prop :=
  match src with
  | some (.uri u) => dst = some u
  | some .view => dst = none
  | none => dst = none

theorem slotFollows_resolve (src : Option ImageSource) :
    slotFollows src (resolve_texture_slot src) := by
  cases src with
  | none => rfl
  | some is => cases is <;> rfl

/-- Claim C7: for every primitive with a position stream the load succeeds
and stores a material in which each of the five texture slots holds the
URI path when the image source is a file path, and `None` when the image
source is a buffer view (or absent); an embedded image never fails the load. -/
theorem material_slots_resolved (p : GltfPrimitive) (pos : List Vec3)
    (hpos : p.positions = some pos) :
    ∃ lp, load_gltf_primitive p = Except.ok lp ∧
      ∃ m, lp.material = some m ∧
        slotFollows p.material.base_color_texture m.base_color_texture ∧
        slotFollows p.material.metallic_roughness_texture m.metallic_roughness_texture ∧
        slotFollows p.material.normal_texture m.normal_texture ∧
        slotFollows p.material.occlusion_texture m.occlusion_texture ∧
        slotFollows p.material.emissive_texture m.emissive_texture := by
  cases hl : load_gltf_primitive p with
  | error e => simp [load_gltf_primitive, hpos] at hl
  | ok lp =>
      simp only [load_gltf_primitive, hpos, Except.ok.injEq] at hl
      subst hl
      exact ⟨_, rfl, _, rfl, slotFollows_resolve _, slotFollows_resolve _,
        slotFollows_resolve _, slotFollows_resolve _, slotFollows_resolve _⟩

/-- A primitive with one vertex whose material has an embedded (buffer-view)
base color texture and a file-path normal texture. -/
def primMixedMaterial : GltfPrimitive :=
  { positions := some [(0, 0, 0)], normals := none, tangents := none,
    texcoords0 := none, texcoords1 := none, colors0 := none, joints0 := none,
    weights0 := none, indices := none,
    material :=
      { base_color_texture := some ImageSource.view,
        metallic_roughness_texture := none,
        normal_texture := some (ImageSource.uri "normal.png"),
        occlusion_texture := none, emissive_texture := none,
        base_color_factor := (1, 1, 1, 1), metallic_factor := 1,
        roughness_factor := 1, alpha_blend := false, double_sided := false } }

/-- Claim C7 witness: the embedded base-color slot resolves to `None`, the
file-path normal slot to its path, and the load succeeds. -/
theorem material_slots_resolved_witness :
    ∃ lp, load_gltf_primitive primMixedMaterial = Except.ok lp ∧
      ∃ m, lp.material = some m ∧
        slotFollows primMixedMaterial.material.base_color_texture m.base_color_texture ∧
        slotFollows primMixedMaterial.material.metallic_roughness_texture
          m.metallic_roughness_texture ∧
        slotFollows primMixedMaterial.material.normal_texture m.normal_texture ∧
        slotFollows primMixedMaterial.material.occlusion_texture m.occlusion_texture ∧
        slotFollows primMixedMaterial.material.emissive_texture m.emissive_texture :=
  material_slots_resolved primMixedMaterial [(0, 0, 0)] rfl

/-- The individual float values a color set stores. -/
def colorChannels : Color → List ℚ
  | .Rgb cs => (cs.map vec3List).flatten
  | .Rgba cs => (cs.map vec4List).flatten

theorem u8q_bounds (c : U8) : 0 ≤ u8q c ∧ u8q c ≤ 1 := by
  constructor
  · exact div_nonneg (by exact_mod_cast Nat.zero_le _) (by norm_num)
  · rw [u8q, div_le_one (by norm_num)]
    exact_mod_cast Nat.le_of_lt_succ c.isLt

/-- Claim C8, counterexample: a float-encoded color source is stored as-is,
so a channel value of 2 is stored unchanged and the stored set is not
normalized to the range 0..1. -/
theorem color_range_counterexample :
    decode_colors0 (ReadColors.RgbF32 [(2, 0, 0)]) = [Color.Rgb [(2, 0, 0)]] ∧
    (2 : ℚ) ∈ colorChannels (Color.Rgb [(2, 0, 0)]) ∧
    ¬ ((2 : ℚ) ≤ 1) := by
  refine ⟨rfl, ?_, by norm_num⟩
  simp [colorChannels, vec3List]

/-- Claim C8 (amended): 8-bit color channels are divided by 255, hence every
stored value from an 8-bit source lies in 0..1; float channels are stored
unchanged (so they lie in 0..1 exactly when the source does); both RGB and
RGBA encodings behave this way (16-bit sources store nothing). -/
theorem decoded_colors_spec :
    (∀ cs, decode_colors0 (ReadColors.RgbU8 cs) =
        [Color.Rgb (cs.map (fun c => (u8q c.1, u8q c.2.1, u8q c.2.2)))]) ∧
    (∀ cs, decode_colors0 (ReadColors.RgbaU8 cs) =
        [Color.Rgba (cs.map (fun c =>
          (u8q c.1, u8q c.2.1, u8q c.2.2.1, u8q c.2.2.2)))]) ∧
    (∀ cs, decode_colors0 (ReadColors.RgbF32 cs) = [Color.Rgb cs]) ∧
    (∀ cs, decode_colors0 (ReadColors.RgbaF32 cs) = [Color.Rgba cs]) ∧
    (∀ cs c v, c ∈ decode_colors0 (ReadColors.RgbU8 cs) → v ∈ colorChannels c →
      0 ≤ v ∧ v ≤ 1) ∧
    (∀ cs c v, c ∈ decode_colors0 (ReadColors.RgbaU8 cs) → v ∈ colorChannels c →
      0 ≤ v ∧ v ≤ 1) := by
  refine ⟨fun cs => rfl, fun cs => rfl, fun cs => rfl, fun cs => rfl, ?_, ?_⟩
  · intro cs c v hc hv
    simp only [decode_colors0, List.mem_singleton] at hc
    subst hc
    simp only [colorChannels] at hv
    rw [List.mem_flatten] at hv
    obtain ⟨l, hl, hvl⟩ := hv
    rw [List.mem_map] at hl
    obtain ⟨trip, htrip, rfl⟩ := hl
    rw [List.mem_map] at htrip
    obtain ⟨y, hy, rfl⟩ := htrip
    simp only [vec3List, List.mem_cons, List.not_mem_nil, or_false] at hvl
    rcases hvl with rfl | rfl | rfl
    · exact u8q_bounds _
    · exact u8q_bounds _
    · exact u8q_bounds _
  · intro cs c v hc hv
    simp only [decode_colors0, List.mem_singleton] at hc
    subst hc
    simp only [colorChannels] at hv
    rw [List.mem_flatten] at hv
    obtain ⟨l, hl, hvl⟩ := hv
    rw [List.mem_map] at hl
    obtain ⟨quad, hquad, rfl⟩ := hl
    rw [List.mem_map] at hquad
    obtain ⟨y, hy, rfl⟩ := hquad
    simp only [vec4List, List.mem_cons, List.not_mem_nil, or_false] at hvl
    rcases hvl with rfl | rfl | rfl | rfl
    · exact u8q_bounds _
    · exact u8q_bounds _
    · exact u8q_bounds _
    · exact u8q_bounds _

/-- Claim C8 witness: an 8-bit RGB source with channel 51 stores 51/255 = 1/5,
which lies in 0..1. -/
theorem decoded_colors_spec_witness :
    decode_colors0 (ReadColors.RgbU8 [(51, 51, 51)]) =
      [Color.Rgb [(u8q 51, u8q 51, u8q 51)]] ∧
    (0 ≤ u8q 51 ∧ u8q 51 ≤ 1) :=
  ⟨decoded_colors_spec.1 [(51, 51, 51)],
    decoded_colors_spec.2.2.2.2.1 [(51, 51, 51)] (Color.Rgb [(u8q 51, u8q 51, u8q 51)])
      (u8q 51) (by simp [decode_colors0]) (by simp [colorChannels, vec3List])⟩
